import Mathlib

/-!
# Verification of the gmail-mcp-server reply-construction core

Shallow embedding of the repository's logic components:
`src/utils/validation.py` (`is_valid_email_address`, `sanitize_single_recipient`),
`src/utils/email_helpers.py` (`header_value`, `extract_reply_recipient`,
`build_raw_email`, `get_email_body`), the pure reply-composition logic of
`GmailClient.create_draft_reply` in `src/gmail_client.py` (whose private
helpers are line-for-line identical to the `utils` versions), and the
argument-validation / error-envelope logic of `call_tool` in `src/server.py`.

Python strings are modelled as `List Char` (a Python `str` is a sequence of
code points).  The standard-library routine `email.utils.parseaddr`
(CPython 3.11, `email/_parseaddr.py`, class `AddrlistClass`) is embedded in
full below; since every caller in this repository uses only the address
component of the result (`_, addr = parseaddr(...)`), the embedding tracks
the address strings and drops the display-name/comment accumulation, which
cannot influence the address component.  All loops of the original are
written with an explicit fuel parameter; the top entry point supplies
`4 * length + 16` fuel, far above the bound on the number of loop steps
(every loop iteration of the original consumes at least one character,
except the bounded route-address bookkeeping steps).
-/

namespace Gmail

/-- A Python `str`, as a list of code points. -/
abbrev Str := List Char

/-- The characters for which CPython `str.isspace()` is true — exactly the
set `str.strip()` removes: the ASCII whitespace `\t\n\v\f\r`, the
information separators `\x1c`–`\x1f`, space, NEL, NBSP, and the Unicode
space separators. -/
def pyWsChars : Str :=
  ['\t', '\n', '\x0b', '\x0c', '\r', '\x1c', '\x1d', '\x1e', '\x1f', ' ',
   '\x85', '\xa0', '\u1680', '\u2000', '\u2001', '\u2002', '\u2003', '\u2004',
   '\u2005', '\u2006', '\u2007', '\u2008', '\u2009', '\u200a', '\u2028',
   '\u2029', '\u202f', '\u205f', '\u3000']

/-- Python `str.strip()`: remove leading and trailing whitespace. -/
def pyStrip (s : Str) : Str :=
  ((s.dropWhile (pyWsChars.contains ·)).reverse.dropWhile (pyWsChars.contains ·)).reverse

/-- ASCII lower-casing of one character, as Python `str.lower()` does on ASCII. -/
def asciiLower (c : Char) : Char :=
  if 'A' ≤ c ∧ c ≤ 'Z' then Char.ofNat (c.toNat + 32) else c

/-- Python `str.lower()` on ASCII text. -/
def pyLower (s : Str) : Str := s.map asciiLower

/-- Python truthiness of an optional string (`None` and `""` are falsy). -/
def pyTruthy : Option Str → Bool
  | none => false
  | some s => s ≠ []

/-- `x or None` for a string `x`: the empty string becomes `None`. -/
def strToOpt (s : Str) : Option Str := if s = [] then none else some s

/-- `x if x else none`-style normalisation used when an `Optional[str]` is
tested for truthiness before use (`if in_reply_to:` etc.). -/
def pyOptTruthy : Option Str → Option Str
  | none => none
  | some s => if s = [] then none else some s

/-! ## The `email._parseaddr.AddrlistClass` parser (CPython 3.11) -/

/-- `self.specials = '()<>@,:;.\"[]'`. -/
def specials : Str := ['(', ')', '<', '>', '@', ',', ':', ';', '.', '"', '[', ']']

/-- `self.LWS = ' \t'`. -/
def lwsChars : Str := [' ', '\t']

/-- `self.CR = '\r\n'`. -/
def crChars : Str := ['\r', '\n']

/-- `self.FWS = self.LWS + self.CR`. -/
def fwsChars : Str := lwsChars ++ crChars

/-- `self.atomends = self.specials + self.LWS + self.CR`. -/
def atomends : Str := specials ++ lwsChars ++ crChars

/-- `self.phraseends = self.atomends.replace('.', '')`. -/
def phraseends : Str := atomends.filter (· ≠ '.')

/-- `email._parseaddr.quote`: double backslashes, then escape double quotes. -/
def pyQuote (s : Str) : Str :=
  s.flatMap fun c =>
    if c = '\\' then ['\\', '\\'] else if c = '"' then ['\\', '"'] else [c]

/-- The loop body of `getdelimited` after the opening delimiter has been
consumed.  State: `esc` is the `quote` flag (previous char was a backslash).
Returns the collected fragment and the remaining input (one past the closing
delimiter).  A nested `(`-comment (when `allowcomments`) re-enters the same
loop and its content is appended, exactly as `slist.append(self.getcomment())`
does. -/
def getdelimitedAux (endchars : Str) (allowcomments : Bool) :
    Nat → Bool → Str → Str × Str
  | 0, _, s => ([], s)
  | _ + 1, _, [] => ([], [])
  | fuel + 1, esc, c :: rest =>
    if esc then
      let (r, rest') := getdelimitedAux endchars allowcomments fuel false rest
      (c :: r, rest')
    else if endchars.contains c then ([], rest)
    else if allowcomments && c = '(' then
      let (com, rest') := getdelimitedAux [')', '\r'] true fuel false rest
      let (r, rest'') := getdelimitedAux endchars allowcomments fuel false rest'
      (com ++ r, rest'')
    else if c = '\\' then getdelimitedAux endchars allowcomments fuel true rest
    else
      let (r, rest') := getdelimitedAux endchars allowcomments fuel false rest
      (c :: r, rest')

/-- `getdelimited(beginchar, endchars, allowcomments)`: if the input does not
start with `beginchar` return `''` without consuming anything, else collect
until an end delimiter. -/
def getdelimited (fuel : Nat) (beginchar : Char) (endchars : Str)
    (allowcomments : Bool) (s : Str) : Str × Str :=
  match s with
  | [] => ([], [])
  | c :: rest =>
    if c ≠ beginchar then ([], s)
    else getdelimitedAux endchars allowcomments fuel false rest

/-- `getcomment()` = `getdelimited('(', ')\r', True)` (content dropped by all
address-component consumers, but consumption must be modelled). -/
def getcomment (fuel : Nat) (s : Str) : Str × Str :=
  getdelimited fuel '(' [')', '\r'] true s

/-- `getquote()` = `getdelimited('"', '"\r', False)`. -/
def getquote (fuel : Nat) (s : Str) : Str × Str :=
  getdelimited fuel '"' ['"', '\r'] false s

/-- `gotonext()`: skip linear whitespace and comments; return the collected
whitespace (`'\n'`/`'\r'` are consumed but not collected) and the rest. -/
def gotonext : Nat → Str → Str × Str
  | 0, s => ([], s)
  | _ + 1, [] => ([], [])
  | fuel + 1, c :: rest =>
    if lwsChars.contains c || crChars.contains c then
      let (ws, rest') := gotonext fuel rest
      (if crChars.contains c then ws else c :: ws, rest')
    else if c = '(' then
      let (_, rest') := getcomment fuel (c :: rest)
      gotonext fuel rest'
    else ([], c :: rest)

/-- `getatom(atomends)`: the maximal run of characters not in `ends`. -/
def getatom (ends : Str) (s : Str) : Str × Str :=
  (s.takeWhile (fun c => !ends.contains c), s.dropWhile (fun c => !ends.contains c))

/-- `getphraselist()`: a list of phrase words (atoms and quoted strings),
stopping at a phrase-ending special. -/
def getphraselist : Nat → Str → List Str × Str
  | 0, s => ([], s)
  | _ + 1, [] => ([], [])
  | fuel + 1, c :: rest =>
    if fwsChars.contains c then getphraselist fuel rest
    else if c = '"' then
      let (q, rest') := getquote fuel (c :: rest)
      let (p, rest'') := getphraselist fuel rest'
      (q :: p, rest'')
    else if c = '(' then
      let (_, rest') := getcomment fuel (c :: rest)
      getphraselist fuel rest'
    else if phraseends.contains c then ([], c :: rest)
    else
      let (a, rest') := getatom phraseends (c :: rest)
      let (p, rest'') := getphraselist fuel rest'
      (a :: p, rest'')

/-- `getdomain()` with its accumulator; the `'@'` branch returns the empty
string discarding the accumulator (bpo-34155), leaving the position at the
`'@'`. -/
def getdomain : Nat → Str → Str → Str × Str
  | 0, acc, s => (acc, s)
  | _ + 1, acc, [] => (acc, [])
  | fuel + 1, acc, c :: rest =>
    if lwsChars.contains c then getdomain fuel acc rest
    else if c = '(' then
      let (_, rest') := getcomment fuel (c :: rest)
      getdomain fuel acc rest'
    else if c = '[' then
      let (d, rest') := getdelimited fuel '[' [']', '\r'] false (c :: rest)
      getdomain fuel (acc ++ '[' :: d ++ [']']) rest'
    else if c = '.' then getdomain fuel (acc ++ ['.']) rest
    else if c = '@' then ([], c :: rest)
    else if atomends.contains c then (acc, c :: rest)
    else
      let (a, rest') := getatom atomends (c :: rest)
      getdomain fuel (acc ++ a) rest'

/-- Pop a trailing pure-whitespace element, as
`if aslist and not aslist[-1].strip(): aslist.pop()`. -/
def popWsElem (acc : List Str) : List Str :=
  match acc.getLast? with
  | some l => if pyStrip l = [] then acc.dropLast else acc
  | none => acc

/-- The local-part collection loop of `getaddrspec`; `acc` is `aslist`.  Each
iteration optionally appends the whitespace returned by the trailing
`gotonext()` (`preserve_ws`). -/
def getaddrspecLoop : Nat → List Str → Str → List Str × Str
  | 0, acc, s => (acc, s)
  | _ + 1, acc, [] => (acc, [])
  | fuel + 1, acc, c :: rest =>
    if c = '.' then
      let acc' := popWsElem acc ++ [['.']]
      let (_, rest') := gotonext fuel rest
      getaddrspecLoop fuel acc' rest'
    else if c = '"' then
      let (q, rest') := getquote fuel (c :: rest)
      let acc' := acc ++ ['"' :: pyQuote q ++ ['"']]
      let (ws, rest'') := gotonext fuel rest'
      getaddrspecLoop fuel (if ws ≠ [] then acc' ++ [ws] else acc') rest''
    else if atomends.contains c then (popWsElem acc, c :: rest)
    else
      let (a, rest') := getatom atomends (c :: rest)
      let acc' := acc ++ [a]
      let (ws, rest'') := gotonext fuel rest'
      getaddrspecLoop fuel (if ws ≠ [] then acc' ++ [ws] else acc') rest''

/-- `getaddrspec()`: local part, `'@'`, domain.  Without an `'@'` the joined
local part is returned as-is; an empty domain yields the empty string. -/
def getaddrspec (fuel : Nat) (s : Str) : Str × Str :=
  let (_, s1) := gotonext fuel s
  let (asl, s2) := getaddrspecLoop fuel [] s1
  match s2 with
  | '@' :: s3 =>
    let (_, s4) := gotonext fuel s3
    let (dom, s5) := getdomain fuel [] s4
    if dom = [] then ([], s5) else (asl.flatten ++ '@' :: dom, s5)
  | _ => (asl.flatten, s2)

/-- The scanning loop of `getrouteaddr` after the `'<'`. -/
def getrouteaddrLoop : Nat → Bool → Str → Str × Str
  | 0, _, s => ([], s)
  | _ + 1, _, [] => ([], [])
  | fuel + 1, expectroute, c :: rest =>
    if expectroute then
      let (_, r1) := getdomain fuel [] (c :: rest)
      let (_, r2) := gotonext fuel r1
      getrouteaddrLoop fuel false r2
    else if c = '>' then ([], rest)
    else if c = '@' then
      let (_, r1) := gotonext fuel rest
      getrouteaddrLoop fuel true r1
    else if c = ':' then
      let (_, r1) := gotonext fuel rest
      getrouteaddrLoop fuel false r1
    else
      let (a, r1) := getaddrspec fuel (c :: rest)
      (a, r1.drop 1)

/-- `getrouteaddr()`: entered at a `'<'`; skips route information and returns
the embedded addr-spec. -/
def getrouteaddr (fuel : Nat) (s : Str) : Str × Str :=
  match s with
  | '<' :: rest =>
    let (_, r1) := gotonext fuel rest
    getrouteaddrLoop fuel false r1
  | _ => ([], s)

mutual

/-- `getaddress()`: one address (possibly a group, hence a list), returning
only the address components. -/
def getaddress : Nat → Str → List Str × Str
  | 0, s => ([], s)
  | fuel + 1, s =>
    let (_, s0) := gotonext fuel s
    let (plist, s1) := getphraselist fuel s0
    let (_, s2) := gotonext fuel s1
    let (returnlist, s3) :=
      match s2 with
      | [] =>
        (match plist with
         | p :: _ => [p]
         | [] => [], ([] : Str))
      | c :: rest =>
        if c = '.' || c = '@' then
          let (aspec, r') := getaddrspec fuel s0
          ([aspec], r')
        else if c = ':' then
          getaddressGroup fuel [] rest
        else if c = '<' then
          let (ra, r') := getrouteaddr fuel (c :: rest)
          ([ra], r')
        else
          match plist with
          | p :: _ => ([p], c :: rest)
          | [] => if specials.contains c then ([], rest) else ([], c :: rest)
    let (_, s4) := gotonext fuel s3
    match s4 with
    | ',' :: r => (returnlist, r)
    | _ => (returnlist, s4)

/-- The group (`:` ... `;`) scanning loop inside `getaddress`. -/
def getaddressGroup : Nat → List Str → Str → List Str × Str
  | 0, acc, s => (acc, s)
  | _ + 1, acc, [] => (acc, [])
  | fuel + 1, acc, c :: rest =>
    let (_, s') := gotonext fuel (c :: rest)
    match s' with
    | ';' :: r => (acc, r)
    | [] => (acc, [])
    | s'' =>
      let (ads, r') := getaddress fuel s''
      getaddressGroup fuel (acc ++ ads) r'

end

/-- `getaddrlist()`: all addresses of the field (an unparsable piece
contributes an empty address, `result.append(('',''))`). -/
def getaddrlist : Nat → Str → List Str
  | 0, _ => []
  | _ + 1, [] => []
  | fuel + 1, c :: rest =>
    let (ad, s') := getaddress (fuel + 1) (c :: rest)
    (if ad = [] then [[]] else ad) ++ getaddrlist fuel s'

/-- The address component of `email.utils.parseaddr`: the address of the
first parsed entry, or the empty string when the field is empty or nothing
parses. -/
def parseaddrAddr (s : Str) : Str :=
  if s = [] then []
  else
    match getaddrlist (4 * s.length + 16) s with
    | [] => []
    | a :: _ => a


/-! ## The regex fallback of `sanitize_single_recipient`

`re.search(r"[A-Z0-9._%+-]+@[A-Z0-9.-]+\.[A-Z]{2,}", recipient, re.IGNORECASE)`:
leftmost match, greedy quantifiers with backtracking.  Since `'@'` is not in
the first character class, only the maximal first run can precede the `'@'`;
the `[A-Z0-9.-]+` before the final `\.[A-Z]{2,}` genuinely backtracks (the
class contains `'.'`), from the longest candidate down. -/

/-- ASCII letter (the pattern is compiled with `re.IGNORECASE`). -/
def isLetter (c : Char) : Bool := ('A' ≤ c && c ≤ 'Z') || ('a' ≤ c && c ≤ 'z')

/-- ASCII digit. -/
def isDigit (c : Char) : Bool := '0' ≤ c && c ≤ '9'

/-- The class `[A-Z0-9._%+-]` (case-insensitive). -/
def isLocalChar (c : Char) : Bool :=
  isLetter c || isDigit c || c = '.' || c = '_' || c = '%' || c = '+' || c = '-'

/-- The class `[A-Z0-9.-]` (case-insensitive). -/
def isDomChar (c : Char) : Bool := isLetter c || isDigit c || c = '.' || c = '-'

/-- Backtrack `[A-Z0-9.-]+` from length `j` downwards looking for `\.[A-Z]{2,}`;
`run` is the maximal `[A-Z0-9.-]` run and `tail` what follows it. -/
def emailMatchDom (run : Str) (tail : Str) : Nat → Option Str
  | 0 => none
  | j + 1 =>
    match run.drop (j + 1) ++ tail with
    | '.' :: t =>
      let cs := t.takeWhile isLetter
      if 2 ≤ cs.length then some (run.take (j + 1) ++ '.' :: cs)
      else emailMatchDom run tail j
    | _ => emailMatchDom run tail j

/-- Try to match the whole pattern at the current position. -/
def emailMatchAt (s : Str) : Option Str :=
  let a := s.takeWhile isLocalChar
  if a = [] then none
  else
    match s.drop a.length with
    | '@' :: t =>
      let run := t.takeWhile isDomChar
      if run = [] then none
      else
        match emailMatchDom run (t.drop run.length) run.length with
        | some m => some (a ++ '@' :: m)
        | none => none
    | _ => none

/-- `re.search`: the match at the leftmost position where one exists. -/
def emailSearch : Str → Option Str
  | [] => none
  | c :: rest =>
    match emailMatchAt (c :: rest) with
    | some m => some m
    | none => emailSearch rest

/-! ## `src/utils/validation.py` -/

/-- `is_valid_email_address(value)` (also `GmailClient._is_valid_email_address`):
non-empty input, `parseaddr` yields a non-empty address that contains `'@'`
and no space character. -/
def is_valid_email_address (value : Str) : Bool :=
  if value = [] then false
  else
    let addr := parseaddrAddr value
    addr ≠ [] && addr.contains '@' && ¬ addr.contains ' '

/-- `sanitize_single_recipient(recipient)` (also
`GmailClient._sanitize_single_recipient`): parse with `parseaddr`, fall back
to the regex scan, then gate through `is_valid_email_address`. -/
def sanitize_single_recipient (recipient : Str) : Str :=
  if recipient = [] then []
  else
    let addr := pyStrip (parseaddrAddr (pyStrip recipient))
    let addr :=
      if addr = [] then
        match emailSearch recipient with
        | some m => m
        | none => []
      else addr
    if addr ≠ [] && is_valid_email_address addr then addr else []

/-! ## `src/utils/email_helpers.py` (and the identical `GmailClient` methods) -/

/-- The header names the composer reads. -/
def hdrReplyTo : Str := "Reply-To".toList

/-- The `From` header name. -/
def hdrFrom : Str := "From".toList

/-- The `Subject` header name. -/
def hdrSubject : Str := "Subject".toList

/-- The `Message-ID` header name. -/
def hdrMessageId : Str := "Message-ID".toList

/-- The `References` header name. -/
def hdrReferences : Str := "References".toList

/-- The MIME type selected by the body decoder. -/
def mimeTextPlain : Str := "text/plain".toList

/-- A provider header object: a dict with optional `name` and `value` keys. -/
structure Header where
  name : Option Str
  value : Option Str

/-- `header_value(headers, name)`: the value of the first header whose name
matches exactly, `''` when absent (`h.get("value") or ""`). -/
def header_value (headers : List Header) (name : Str) : Str :=
  match headers with
  | [] => []
  | h :: rest =>
    if h.name = some name then
      match h.value with
      | some v => v
      | none => []
    else header_value rest name

/-- `extract_reply_recipient(message_payload)` (also
`GmailClient._extract_reply_recipient`): sanitize `Reply-To`, else `From`
(Python `or` picks the first non-empty string). -/
def extract_reply_recipient (headers : List Header) : Str :=
  let reply_to_raw := header_value headers hdrReplyTo
  let from_raw := header_value headers hdrFrom
  let r := sanitize_single_recipient reply_to_raw
  if r ≠ [] then r else sanitize_single_recipient from_raw

/-! ## base64url and UTF-8 decoding (`base64.urlsafe_b64decode(...).decode('utf-8')`) -/

/-- The base64 value of one character, standard alphabet. -/
def b64Val (c : Char) : Option Nat :=
  if 'A' ≤ c && c ≤ 'Z' then some (c.toNat - 65)
  else if 'a' ≤ c && c ≤ 'z' then some (c.toNat - 97 + 26)
  else if '0' ≤ c && c ≤ '9' then some (c.toNat - 48 + 52)
  else if c = '+' then some 62
  else if c = '/' then some 63
  else none

/-- `binascii.a2b_base64` in its default non-strict mode (CPython): invalid
characters are skipped, `'='` terminates once a quantum of two or three data
characters is padded out, and a trailing partial quantum is an error
(`Incorrect padding` / `cannot be 1 more than a multiple of 4`). -/
def a2bBase64Loop : Str → Nat → Nat → Nat → List Nat → Option (List Nat)
  | [], quadPos, _, _, acc => if quadPos = 0 then some acc else none
  | c :: rest, quadPos, leftchar, pads, acc =>
    if c = '=' then
      if 2 ≤ quadPos then
        if 4 ≤ quadPos + (pads + 1) then some acc
        else a2bBase64Loop rest quadPos leftchar (pads + 1) acc
      else a2bBase64Loop rest quadPos leftchar pads acc
    else
      match b64Val c with
      | none => a2bBase64Loop rest quadPos leftchar pads acc
      | some v =>
        match quadPos with
        | 0 => a2bBase64Loop rest 1 v 0 acc
        | 1 => a2bBase64Loop rest 2 (v % 16) 0 (acc ++ [leftchar * 4 + v / 16])
        | 2 => a2bBase64Loop rest 3 (v % 4) 0 (acc ++ [leftchar * 16 + v / 4])
        | _ => a2bBase64Loop rest 0 0 0 (acc ++ [leftchar * 64 + v])

/-- `base64.urlsafe_b64decode`: translate `-`→`+`, `_`→`/`, then decode. -/
def urlsafeB64Decode (s : Str) : Option (List Nat) :=
  let t := s.map fun c => if c = '-' then '+' else if c = '_' then '/' else c
  a2bBase64Loop t 0 0 0 []

/-- Strict UTF-8 decoding of a byte sequence, as `bytes.decode('utf-8')`:
rejects overlong forms, surrogates and out-of-range code points. -/
def utf8Decode : List Nat → Option Str
  | [] => some []
  | b0 :: rest =>
    if b0 < 0x80 then
      match utf8Decode rest with
      | some cs => some (Char.ofNat b0 :: cs)
      | none => none
    else if 0xC2 ≤ b0 && b0 ≤ 0xDF then
      match rest with
      | b1 :: rest' =>
        if 0x80 ≤ b1 && b1 ≤ 0xBF then
          match utf8Decode rest' with
          | some cs => some (Char.ofNat ((b0 - 0xC0) * 64 + (b1 - 0x80)) :: cs)
          | none => none
        else none
      | _ => none
    else if 0xE0 ≤ b0 && b0 ≤ 0xEF then
      match rest with
      | b1 :: b2 :: rest' =>
        let lo1 := if b0 = 0xE0 then 0xA0 else 0x80
        let hi1 := if b0 = 0xED then 0x9F else 0xBF
        if lo1 ≤ b1 && b1 ≤ hi1 && 0x80 ≤ b2 && b2 ≤ 0xBF then
          match utf8Decode rest' with
          | some cs =>
            some (Char.ofNat ((b0 - 0xE0) * 4096 + (b1 - 0x80) * 64 + (b2 - 0x80)) :: cs)
          | none => none
        else none
      | _ => none
    else if 0xF0 ≤ b0 && b0 ≤ 0xF4 then
      match rest with
      | b1 :: b2 :: b3 :: rest' =>
        let lo1 := if b0 = 0xF0 then 0x90 else 0x80
        let hi1 := if b0 = 0xF4 then 0x8F else 0xBF
        if lo1 ≤ b1 && b1 ≤ hi1 && 0x80 ≤ b2 && b2 ≤ 0xBF && 0x80 ≤ b3 && b3 ≤ 0xBF then
          match utf8Decode rest' with
          | some cs =>
            some (Char.ofNat ((b0 - 0xF0) * 262144 + (b1 - 0x80) * 4096 +
              (b2 - 0x80) * 64 + (b3 - 0x80)) :: cs)
          | none => none
        else none
      | _ => none
    else none

/-- `base64.urlsafe_b64decode(data).decode('utf-8')`; `none` models the
exception propagating out. -/
def decodeB64Utf8 (data : Str) : Option Str :=
  match urlsafeB64Decode data with
  | some bytes => utf8Decode bytes
  | none => none

/-! ## `get_email_body` (`src/utils/email_helpers.py`, identical
`GmailClient._get_email_body`) -/

/-- The `body` dict of a payload node, with its optional `data` field. -/
structure PartBody where
  data : Option Str

/-- A Gmail message payload node: optional `mimeType`, optional `body` dict,
optional nested `parts` (the code never descends into a part's own parts). -/
inductive Payload where
  | mk (mimeType : Option Str) (body : Option PartBody) (parts : Option (List Payload))

/-- `mimeType` accessor (`part['mimeType']`; `none` stands for a missing
key, on which the subscript raises `KeyError`). -/
def Payload.mimeType : Payload → Option Str
  | .mk m _ _ => m

/-- `body` accessor. -/
def Payload.body : Payload → Option PartBody
  | .mk _ b _ => b

/-- `parts` accessor. -/
def Payload.parts : Payload → Option (List Payload)
  | .mk _ _ p => p

/-- The `for part in payload['parts']` scan: the first part whose
`mimeType` is `'text/plain'` and whose `body` has inline `data` wins; a
`text/plain` part whose `body` dict has no `data` is passed over.  The
outer `none` models the `KeyError` raised by `part['mimeType']` when a part
has no `mimeType`, and by `part['body']` when a `text/plain` part has no
`body` dict; `some none` means the scan found nothing. -/
def scanParts : List Payload → Option (Option Str)
  | [] => some none
  | part :: rest =>
    match part.mimeType with
    | none => none
    | some mt =>
      if mt = mimeTextPlain then
        match part.body with
        | none => none
        | some pb =>
          match pb.data with
          | some d => some (some d)
          | none => scanParts rest
      else scanParts rest

/-- The decoded body before truncation — the `body` local variable of
`get_email_body` just before `return body[:500]`; `none` models an
exception (malformed base64/UTF-8, or a `KeyError` from the part scan). -/
def email_body_raw (payload : Payload) : Option Str :=
  match payload.parts with
  | some parts =>
    match scanParts parts with
    | none => none
    | some none => some []
    | some (some d) => decodeB64Utf8 d
  | none =>
    match payload.body with
    | some pb =>
      match pb.data with
      | some d => decodeB64Utf8 d
      | none => some []
    | none => some []

/-- `get_email_body(payload)`: the decoded body truncated to its first 500
characters of decoded text (`return body[:500]`). -/
def get_email_body (payload : Payload) : Option Str :=
  (email_body_raw payload).map (List.take 500)

/-! ## `build_raw_email` (`src/utils/email_helpers.py`, identical
`GmailClient._build_raw_email`) -/

/-- The `EmailMessage` assembled by `build_raw_email`, before MIME
serialisation and base64url wrapping (both injective packaging steps that no
observable claim inspects). -/
structure RawEmailMessage where
  toAddr : Str
  subject : Str
  inReplyTo : Option Str
  references : Option Str
  body : Str
deriving DecidableEq

/-- The `ValueError` message of `build_raw_email`. -/
def buildErrMsg : Str :=
  ("Cannot create draft: extracted 'To' recipient is empty/invalid").toList

/-- `build_raw_email(to, subject, body, in_reply_to, references)`: re-sanitize
the recipient and refuse to build when that yields the empty string; optional
headers are set only when truthy. -/
def build_raw_email (toArg subject body : Str)
    (in_reply_to references : Option Str) : Except Str RawEmailMessage :=
  let to_sanitized := sanitize_single_recipient toArg
  if to_sanitized = [] then .error buildErrMsg
  else
    .ok { toAddr := to_sanitized
          subject := subject
          inReplyTo := pyOptTruthy in_reply_to
          references := pyOptTruthy references
          body := body }

/-! ## The pure part of `GmailClient.create_draft_reply` -/

/-- The `ValueError` message raised when no recipient can be extracted. -/
def recipientErrMsg : Str :=
  ("Cannot create draft reply: could not extract a valid recipient from Reply-To/From").toList

/-- The threading-header computation of `create_draft_reply` (source lines
231–236): `Message-ID` becomes `in_reply_to` (`or None`), `References` the
seed, and a present `in_reply_to` is appended to a present `References`
separated by one space with the concatenation stripped. -/
def reply_threading (headers : List Header) : Option Str × Option Str :=
  let in_reply_to := strToOpt (header_value headers hdrMessageId)
  let references := strToOpt (header_value headers hdrReferences)
  let references :=
    match in_reply_to with
    | some irt =>
      some (match references with
            | some r => pyStrip (r ++ ' ' :: irt)
            | none => irt)
    | none => references
  (in_reply_to, references)

/-- The provider-independent body of `create_draft_reply(message_id,
thread_id, reply_body)` once the original message's headers have been
fetched: recipient extraction, subject derivation, threading headers, and
the call to `build_raw_email`.  `Except.error` models the raised
`ValueError`s. -/
def create_draft_reply_pure (headers : List Header) (reply_body : Str) :
    Except Str RawEmailMessage :=
  let to_addr := extract_reply_recipient headers
  if to_addr = [] then .error recipientErrMsg
  else
    let original_subject := header_value headers hdrSubject
    let subject :=
      if ("re:".toList).isPrefixOf (pyLower original_subject) then original_subject
      else pyStrip (("Re: ".toList) ++ original_subject)
    build_raw_email to_addr subject reply_body
      (reply_threading headers).1 (reply_threading headers).2

/-! ## The `create_draft_reply` branch of `call_tool` (`src/server.py`) -/

/-- A tool response envelope: the JSON success payload (carrying the draft's
message) or the `{"error": ...}` object. -/
inductive Envelope where
  | success (m : RawEmailMessage)
  | errText (msg : Str)
deriving DecidableEq

/-- Result of one dispatch: the envelope, whether the provider was contacted
at all (the original-message fetch), and whether a draft-creation call was
issued. -/
structure DispatchResult where
  envelope : Envelope
  providerFetched : Bool
  draftCallMade : Bool
deriving DecidableEq

/-- The `create_draft_reply` arm of `call_tool`: `arguments.get` yields
`none` for an absent key; `if not all([message_id, thread_id, reply_body])`
rejects falsy values (absent or empty) before any provider call; every
exception is caught and rendered as `{"error": f"Tool execution failed:
{str(e)}"}`.  `original_headers` are the headers of the provider-fetched
original message. -/
def call_tool_create_draft (message_id thread_id reply_body : Option Str)
    (original_headers : List Header) : DispatchResult :=
  if pyTruthy message_id && pyTruthy thread_id && pyTruthy reply_body then
    match create_draft_reply_pure original_headers
        (match reply_body with | some b => b | none => []) with
    | .ok m => ⟨.success m, true, true⟩
    | .error e => ⟨.errText (("Tool execution failed: ".toList) ++ e), true, false⟩
  else ⟨.errText ("Missing required parameters".toList), false, false⟩


/-- Replace a payload node's nested parts (used to state that the decoder
never recurses into them). -/
def Payload.stripNested : Payload → Payload
  | .mk m b _ => .mk m b none

/-- Python's substring test `needle in hay` for strings. -/
def substrB (needle : Str) : Str → Bool
  | [] => needle.isPrefixOf []
  | c :: t => needle.isPrefixOf (c :: t) || substrB needle t

/-- C2: `composeReply` resolves the reply recipient by sanitizing the
`Reply-To` header value first and, if that yields empty, the `From` header
value; the first non-empty sanitized result is the recipient. -/
theorem c2_recipient_preference (headers : List Header) :
    extract_reply_recipient headers =
      (if sanitize_single_recipient (header_value headers hdrReplyTo) = [] then
        sanitize_single_recipient (header_value headers hdrFrom)
      else sanitize_single_recipient (header_value headers hdrReplyTo)) := by
  by_cases h : sanitize_single_recipient (header_value headers hdrReplyTo) = [] <;>
    simp [extract_reply_recipient, h]

/-- C4: the encoder `build_raw_email` fails exactly when `sanitize` of its
recipient argument yields the empty string, and on success the `To` header
of the produced message is that sanitized value — it re-validates
independently of its caller. -/
theorem c4_encoder_revalidation (toArg subject body : Str) (irt refs : Option Str) :
    ((∃ e, build_raw_email toArg subject body irt refs = .error e) ↔
      sanitize_single_recipient toArg = []) ∧
    (∀ m, build_raw_email toArg subject body irt refs = .ok m →
      m.toAddr = sanitize_single_recipient toArg) := by
  unfold build_raw_email
  by_cases h : sanitize_single_recipient toArg = []
  · rw [if_pos h]
    exact ⟨⟨fun _ => h, fun _ => ⟨buildErrMsg, rfl⟩⟩, fun m hm => by cases hm⟩
  · rw [if_neg h]
    refine ⟨⟨fun he => ?_, fun hh => absurd hh h⟩, fun m hm => ?_⟩
    · obtain ⟨e, he⟩ := he
      cases he
    · cases hm
      rfl

/-- C4 witness: the encoder applied to a concrete recipient. -/
theorem c4_encoder_revalidation_witness :
    ({ toAddr := "a@b.com".toList, subject := [], inReplyTo := none,
       references := none, body := [] } : RawEmailMessage).toAddr =
      sanitize_single_recipient ("a@b.com".toList) :=
  (c4_encoder_revalidation ("a@b.com".toList) [] [] none none).2 _ (by rfl)

/-- C10: dispatching `create_draft_reply` with any of `message_id`,
`thread_id`, `reply_body` absent or equal to the empty string returns the
`{"error": "Missing required parameters"}` envelope and performs no
downstream call. -/
theorem c10_missing_parameters (message_id thread_id reply_body : Option Str)
    (headers : List Header)
    (h : message_id = none ∨ message_id = some [] ∨ thread_id = none ∨
      thread_id = some [] ∨ reply_body = none ∨ reply_body = some []) :
    call_tool_create_draft message_id thread_id reply_body headers =
      ⟨.errText ("Missing required parameters".toList), false, false⟩ := by
  rcases h with h | h | h | h | h | h <;> subst h <;>
    simp [call_tool_create_draft, pyTruthy]

/-- C10 witness: an empty-string `thread_id` is rejected as missing. -/
theorem c10_missing_parameters_witness :
    call_tool_create_draft (some ("m".toList)) (some []) (some ("b".toList)) [] =
      ⟨.errText ("Missing required parameters".toList), false, false⟩ :=
  c10_missing_parameters _ _ _ [] (Or.inr (Or.inr (Or.inr (Or.inl rfl))))

/-- C9: the body returned by `get_email_body` is exactly the first 500
characters of the decoded body text: it is never longer than 500, any
decoded body yields its `take 500` (counted over decoded characters, not
encoded bytes), and a decoded body longer than 500 characters is truncated
to exactly length 500. -/
theorem c9_body_le_500 (payload : Payload) :
    (∀ s, get_email_body payload = some s → s.length ≤ 500) ∧
    (∀ b, email_body_raw payload = some b →
      get_email_body payload = some (b.take 500) ∧
      (500 < b.length → (b.take 500).length = 500)) := by
  constructor
  · intro s h
    unfold get_email_body at h
    obtain ⟨a, -, rfl⟩ := Option.map_eq_some'.mp h
    exact List.length_take_le 500 a
  · intro b hb
    refine ⟨?_, fun hlong => ?_⟩
    · unfold get_email_body
      rw [hb]
      rfl
    · rw [List.length_take]
      omega

set_option maxRecDepth 100000 in
/-- C9 witness: a 600-character decoded body is truncated to exactly its
first 500 decoded characters, and a short body passes through under the
bound. -/
theorem c9_body_le_500_witness :
    (get_email_body
        (.mk none (some ⟨some ((List.replicate 200 ("eHh4".toList)).flatten)⟩) none) =
      some ((List.replicate 600 'x').take 500) ∧
      (500 < (List.replicate 600 'x').length →
        ((List.replicate 600 'x').take 500).length = 500)) ∧
    ("x".toList).length ≤ 500 :=
  ⟨(c9_body_le_500
      (.mk none (some ⟨some ((List.replicate 200 ("eHh4".toList)).flatten)⟩) none)).2
      (List.replicate 600 'x') (by decide),
   (c9_body_le_500 (.mk none (some ⟨some ("eA==".toList)⟩) none)).1
      ("x".toList) (by decide)⟩

/-- C5 counterexample: `is_valid_email_address` accepts `"Name <a@b.com>"`
even though the raw input contains spaces, so the whitespace check is not
applied to the whole input string. -/
theorem c5_validity_counterexample :
    is_valid_email_address ("Name <a@b.com>".toList) = true ∧
      ' ' ∈ "Name <a@b.com>".toList := by decide

/-- C5 (amended): `isValidAddress(value)` is true iff `value` is non-empty
and `parseaddr` yields a non-empty address that contains `'@'` and contains
no space — the whitespace check runs against the parsed address portion,
not the raw input.  `isValidAddress("a b@c.com")` is still false, because
`parseaddr` returns the entire string (space included) as the address. -/
theorem c5_validity_amended (value : Str) :
    (is_valid_email_address value = true ↔
      value ≠ [] ∧ parseaddrAddr value ≠ [] ∧ '@' ∈ parseaddrAddr value ∧
        ' ' ∉ parseaddrAddr value) ∧
    is_valid_email_address ("a b@c.com".toList) = false ∧
    parseaddrAddr ("a b@c.com".toList) = "a b@c.com".toList := by
  refine ⟨?_, by decide, by decide⟩
  by_cases h : value = [] <;>
    simp [is_valid_email_address, h, List.elem_iff, and_assoc]

/-- C6 counterexample: `sanitize` can return a value with two `'@'`
characters (quoted local part) and a value containing a tab, so the result
is neither single-`'@'` nor whitespace-free in general. -/
theorem c6_sanitize_counterexample :
    (sanitize_single_recipient ("\"a@b\"@c.com".toList) = "\"a@b\"@c.com".toList ∧
      (sanitize_single_recipient ("\"a@b\"@c.com".toList)).count '@' = 2) ∧
    (sanitize_single_recipient ("a\tb@c.com".toList) = "a\tb@c.com".toList ∧
      '\t' ∈ sanitize_single_recipient ("a\tb@c.com".toList)) := by decide

/-- The final validation gate of `sanitize_single_recipient`: whatever
candidate reaches it, the result is empty or validated. -/
theorem sanitizeGate (a : Str) :
    (if (decide (a ≠ []) && is_valid_email_address a) = true then a else []) = [] ∨
      is_valid_email_address
        (if (decide (a ≠ []) && is_valid_email_address a) = true then a else []) = true := by
  by_cases hc : (decide (a ≠ []) && is_valid_email_address a) = true
  · rw [if_pos hc]
    exact Or.inr (Bool.and_elim_right hc)
  · rw [if_neg hc]
    exact Or.inl rfl

/-- C6 (amended): `sanitize` returns either the empty string (no valid
address found, never an exception for that condition) or a string accepted
by `is_valid_email_address` — its permissive parse yields a non-empty
address containing `'@'` with no space character.  The returned string
itself need not contain exactly one `'@'` nor be whitespace-free. -/
theorem c6_sanitize_amended (s : Str) :
    sanitize_single_recipient s = [] ∨
      is_valid_email_address (sanitize_single_recipient s) = true := by
  by_cases h0 : s = []
  · exact Or.inl (by simp [sanitize_single_recipient, h0])
  · unfold sanitize_single_recipient
    rw [if_neg h0]
    exact sanitizeGate _

/-- Case analysis of the References concatenation rule over abstract
`Message-ID` and `References` header values. -/
theorem replyThreadingCases (mid refs : Str) :
    (match strToOpt mid with
     | some irt =>
       some (match strToOpt refs with
             | some r => pyStrip (r ++ ' ' :: irt)
             | none => irt)
     | none => strToOpt refs) =
      (if mid = [] then strToOpt refs
       else if refs = [] then some mid
       else some (pyStrip (refs ++ ' ' :: mid))) := by
  by_cases hm : mid = [] <;> by_cases hr : refs = [] <;> simp [strToOpt, hm, hr]

/-- C1: the References computation of `composeReply`: with a `Message-ID`
present and a prior `References` present, the new value is the prior
References, one space, and the Message-ID, with the concatenation stripped;
with a `Message-ID` and no prior `References` it is exactly the Message-ID;
without a `Message-ID`, `References` passes through unchanged (absent if
absent).  On the concrete headers `{Reply-To: "", From: "a@b.com", Subject:
"Hello", Message-ID: "<1>"}` the built reply has `inReplyTo = "<1>"` and
`references = "<1>"`. -/
theorem c1_references_threading (headers : List Header) :
    ((reply_threading headers).1 =
        strToOpt (header_value headers hdrMessageId) ∧
      (reply_threading headers).2 =
        (if header_value headers hdrMessageId = [] then
          strToOpt (header_value headers hdrReferences)
        else if header_value headers hdrReferences = [] then
          some (header_value headers hdrMessageId)
        else
          some (pyStrip (header_value headers hdrReferences ++
            ' ' :: header_value headers hdrMessageId)))) ∧
    create_draft_reply_pure
        [⟨some ("Reply-To".toList), some []⟩,
         ⟨some ("From".toList), some ("a@b.com".toList)⟩,
         ⟨some ("Subject".toList), some ("Hello".toList)⟩,
         ⟨some ("Message-ID".toList), some ("<1>".toList)⟩]
        ("hello".toList) =
      .ok { toAddr := "a@b.com".toList, subject := "Re: Hello".toList,
            inReplyTo := some ("<1>".toList),
            references := some ("<1>".toList), body := "hello".toList } := by
  exact ⟨⟨rfl, replyThreadingCases _ _⟩, by rfl⟩

/-- The only error `build_raw_email` can produce is its own `ValueError`
message. -/
theorem build_error_msg (toArg subject body : Str) (irt refs : Option Str)
    (e : Str) (h : build_raw_email toArg subject body irt refs = .error e) :
    e = buildErrMsg := by
  simp only [build_raw_email] at h
  by_cases hs : sanitize_single_recipient toArg = []
  · rw [if_pos hs] at h
    exact (Except.error.inj h).symm
  · rw [if_neg hs] at h
    cases h

/-- C3 counterexample: with `Reply-To: '<"@'`, the extracted recipient is
the non-empty string `'"@"'` (so the Reply-To/From values do not both
sanitize to empty), yet `create_draft_reply` still fails — with the
encoder's `ValueError`, not the recipient-resolution one.  Failure is
therefore not *exactly* "both sanitize to empty". -/
theorem c3_exactness_counterexample :
    sanitize_single_recipient
        (header_value [⟨some ("Reply-To".toList), some ("<\"@".toList)⟩]
          hdrReplyTo) = "\"@\"".toList ∧
    create_draft_reply_pure [⟨some ("Reply-To".toList), some ("<\"@".toList)⟩]
        ("hi".toList) = .error buildErrMsg ∧
    buildErrMsg ≠ recipientErrMsg := by
  refine ⟨by rfl, by rfl, by decide⟩

/-- C3 (amended): `create_draft_reply` fails with the recipient-resolution
error exactly when both the `Reply-To` and `From` header values sanitize to
empty, and in that case dispatching `createDraftReply` with truthy
arguments returns an error envelope whose message contains the text
"could not extract a valid recipient" and issues no draft-creation call.
(The composition can additionally fail at the encoder's re-validation for
exotic recipients, so bare failure is not equivalent to both-empty.) -/
theorem c3_recipient_failure (headers : List Header) (rb : Str) :
    (create_draft_reply_pure headers rb = .error recipientErrMsg ↔
      sanitize_single_recipient (header_value headers hdrReplyTo) = [] ∧
      sanitize_single_recipient (header_value headers hdrFrom) = []) ∧
    (sanitize_single_recipient (header_value headers hdrReplyTo) = [] →
     sanitize_single_recipient (header_value headers hdrFrom) = [] →
     ∀ mid tid : Str, mid ≠ [] → tid ≠ [] → rb ≠ [] →
       ∃ e, call_tool_create_draft (some mid) (some tid) (some rb) headers =
          ⟨.errText e, true, false⟩ ∧
        substrB ("could not extract a valid recipient".toList) e = true) := by
  have hext : extract_reply_recipient headers = [] ↔
      sanitize_single_recipient (header_value headers hdrReplyTo) = [] ∧
      sanitize_single_recipient (header_value headers hdrFrom) = [] := by
    unfold extract_reply_recipient
    by_cases h : sanitize_single_recipient (header_value headers hdrReplyTo) = [] <;>
      simp [h]
  constructor
  · simp only [create_draft_reply_pure]
    by_cases he : extract_reply_recipient headers = []
    · rw [if_pos he]
      simp [hext.mp he]
    · rw [if_neg he]
      constructor
      · intro hb
        exact absurd (build_error_msg _ _ _ _ _ _ hb) (by decide)
      · intro hb
        exact absurd (hext.mpr hb) he
  · intro h1 h2 mid tid hmid htid hrb
    have he : extract_reply_recipient headers = [] := hext.mpr ⟨h1, h2⟩
    have hc : create_draft_reply_pure headers rb = .error recipientErrMsg := by
      simp only [create_draft_reply_pure]
      rw [if_pos he]
    refine ⟨("Tool execution failed: ".toList) ++ recipientErrMsg, ?_, by decide⟩
    have hcond : (pyTruthy (some mid) && pyTruthy (some tid) && pyTruthy (some rb)) = true := by
      simp [pyTruthy, hmid, htid, hrb]
    simp [call_tool_create_draft, hcond, hc]

/-- C3 witness: a message with no headers at all has both values sanitize
to empty, and dispatch yields the expected envelope. -/
theorem c3_recipient_failure_witness :
    ∃ e, call_tool_create_draft (some ("m".toList)) (some ("t".toList))
        (some ("b".toList)) [] = ⟨.errText e, true, false⟩ ∧
      substrB ("could not extract a valid recipient".toList) e = true :=
  (c3_recipient_failure [] ("b".toList)).2 (by decide) (by decide) _ _
    (by decide) (by decide) (by decide)

/-- The part scan agrees with `List.find?` over the predicate "`text/plain`
with inline data", provided every part carries a `mimeType` and every
`text/plain` part carries a `body` dict (otherwise the original raises
`KeyError`). -/
theorem scanParts_eq_find (parts : List Payload)
    (hmt : ∀ p ∈ parts, p.mimeType.isSome)
    (h : ∀ p ∈ parts, p.mimeType = some mimeTextPlain → p.body.isSome) :
    scanParts parts =
      some ((parts.find? fun p =>
        decide (p.mimeType = some mimeTextPlain) &&
          (p.body.bind PartBody.data).isSome).bind
        fun p => p.body.bind PartBody.data) := by
  induction parts with
  | nil => rfl
  | cons p rest ih =>
    obtain ⟨pmt, hpmt⟩ :=
      Option.isSome_iff_exists.mp (hmt p (List.mem_cons_self p rest))
    have ih' := ih (fun q hq => hmt q (List.mem_cons_of_mem p hq))
      (fun q hq hqm => h q (List.mem_cons_of_mem p hq) hqm)
    by_cases hm : pmt = mimeTextPlain
    · subst hm
      have hb : p.body.isSome := h p (List.mem_cons_self p rest) hpmt
      obtain ⟨pb, hpb⟩ := Option.isSome_iff_exists.mp hb
      cases hd : pb.data with
      | some d =>
        have hpred : (decide (p.mimeType = some mimeTextPlain) &&
            (p.body.bind PartBody.data).isSome) = true := by
          simp [hpmt, hpb, hd]
        simp [scanParts, hpmt, hpb, hd, List.find?, hpred]
      | none =>
        have hpred : (decide (p.mimeType = some mimeTextPlain) &&
            (p.body.bind PartBody.data).isSome) = false := by
          simp [hpmt, hpb, hd]
        simp [scanParts, hpmt, hpb, hd, List.find?, hpred, ih']
    · have hpred : (decide (p.mimeType = some mimeTextPlain) &&
          (p.body.bind PartBody.data).isSome) = false := by
        simp [hpmt, hm]
      simp [scanParts, hpmt, hm, List.find?, hpred, ih']

/-- Dropping every part's nested parts does not change the scan. -/
theorem scanParts_stripNested (parts : List Payload) :
    scanParts (parts.map Payload.stripNested) = scanParts parts := by
  induction parts with
  | nil => rfl
  | cons p rest ih =>
    cases p with
    | mk m b sub =>
      simp [scanParts, Payload.stripNested, Payload.mimeType, Payload.body, ih]

/-- C8 counterexample: a `text/plain` part with no `body` dict is not
"passed over" — `part['body']` raises `KeyError`, so the decode crashes
even though a later `text/plain` part carries inline data for the claimed
result; likewise a part with no `mimeType` raises at `part['mimeType']`
instead of being scanned past. -/
theorem c8_keyerror_counterexample :
    get_email_body (.mk none none
        (some [.mk (some mimeTextPlain) none none,
               .mk (some mimeTextPlain) (some ⟨some ("aGVsbG8gd29ybGQ=".toList)⟩) none])) =
      none ∧
    get_email_body (.mk none none
        (some [.mk none (some ⟨some ("eHh4eA==".toList)⟩) none,
               .mk (some mimeTextPlain) (some ⟨some ("aGVsbG8gd29ybGQ=".toList)⟩) none])) =
      none := ⟨rfl, rfl⟩

/-- C8 (amended): provided every part carries a `mimeType` and every
`text/plain` part carries a `body` dict, the decoded body comes from the
first part whose MIME type is exactly `text/plain` and that carries inline
data, scanning in order, passing over `text/plain` parts whose `body` has
no inline data and never recursing into nested parts; with no `parts` but
direct inline data, that data is decoded; with neither, the body is empty
(a `text/plain` part with no `body` dict, or a part with no `mimeType`,
instead raises `KeyError`).  On parts
`[text/html with data, text/plain with base64("hello world")]` the result
is `"hello world"`. -/
theorem c8_body_decoding (mt : Option Str) (pb : Option PartBody)
    (parts : List Payload)
    (hmt : ∀ p ∈ parts, p.mimeType.isSome)
    (hparts : ∀ p ∈ parts, p.mimeType = some mimeTextPlain → p.body.isSome) :
    (get_email_body (.mk mt pb (some parts)) =
      (match (parts.find? fun p =>
          decide (p.mimeType = some mimeTextPlain) &&
            (p.body.bind PartBody.data).isSome) with
       | some p =>
         (match p.body.bind PartBody.data with
          | some d => (decodeB64Utf8 d).map (List.take 500)
          | none => some [])
       | none => some [])) ∧
    get_email_body (.mk mt pb (some (parts.map Payload.stripNested))) =
      get_email_body (.mk mt pb (some parts)) ∧
    (∀ d, get_email_body (.mk mt (some ⟨some d⟩) none) =
      (decodeB64Utf8 d).map (List.take 500)) ∧
    get_email_body (.mk mt none none) = some [] ∧
    get_email_body (.mk mt (some ⟨none⟩) none) = some [] ∧
    get_email_body (.mk none none
        (some [.mk (some ("text/html".toList)) (some ⟨some ("eHh4eA==".toList)⟩) none,
               .mk (some mimeTextPlain) (some ⟨some ("aGVsbG8gd29ybGQ=".toList)⟩) none])) =
      some ("hello world".toList) := by
  refine ⟨?_, ?_, fun d => rfl, rfl, rfl, by rfl⟩
  · unfold get_email_body email_body_raw
    dsimp only [Payload.parts]
    rw [scanParts_eq_find parts hmt hparts]
    cases hf : (parts.find? fun p =>
        decide (p.mimeType = some mimeTextPlain) &&
          (p.body.bind PartBody.data).isSome) with
    | none => rfl
    | some p =>
      cases hd : p.body.bind PartBody.data with
      | none => simp [hd]
      | some d => simp [hd]
  · unfold get_email_body email_body_raw
    dsimp only [Payload.parts]
    rw [scanParts_stripNested]

/-- C8 witness: the decoder applied to the two-part payload of the claim. -/
theorem c8_body_decoding_witness :
    get_email_body (.mk none none
        (some [.mk (some ("text/html".toList)) (some ⟨some ("eHh4eA==".toList)⟩) none,
               .mk (some mimeTextPlain) (some ⟨some ("aGVsbG8gd29ybGQ=".toList)⟩) none])) =
      some ("hello world".toList) :=
  (c8_body_decoding none none
    [.mk (some ("text/html".toList)) (some ⟨some ("eHh4eA==".toList)⟩) none,
     .mk (some mimeTextPlain) (some ⟨some ("aGVsbG8gd29ybGQ=".toList)⟩) none]
    (by decide) (by decide)).2.2.2.2.2

/-! ## The parser on plain comma-separated addresses (for C7) -/

/-- `pyStrip` looks only at the two ends: a string whose first and last
characters are not whitespace is unchanged. -/
theorem pyStrip_ends (l : Str)
    (h1 : ∀ c ∈ l.head?, c ∉ pyWsChars) (h2 : ∀ c ∈ l.getLast?, c ∉ pyWsChars) :
    pyStrip l = l := by
  have hd1 : l.dropWhile (pyWsChars.contains ·) = l := by
    cases l with
    | nil => rfl
    | cons a t => rw [List.dropWhile_cons, if_neg (by simp [h1 a rfl])]
  have hd2 : l.reverse.dropWhile (pyWsChars.contains ·) = l.reverse := by
    cases hl : l.reverse with
    | nil => rfl
    | cons a t =>
      have ha : l.getLast? = some a := by
        rw [← List.head?_reverse, hl]
        rfl
      rw [List.dropWhile_cons, if_neg (by simp [h2 a ha])]
  unfold pyStrip
  rw [hd1, hd2, List.reverse_reverse]

end Gmail
